import Mathlib

/-!
Verification of the Vite-React-Deploy repository: a shallow embedding of
the counter widget in `src/App.jsx` and of the deployment pipeline and
Vite configuration documented in `README.md`, together with proofs of the
specification's claims about them.
-/

namespace ViteReactDeploy

/-! ## Counter widget (`src/App.jsx`)

`App` holds a single piece of state, `const [count, setCount] = useState(0)`.
The button's click handler is `() => setCount((count) => count + 1)`.
The counter value is modelled as an `Int` (its idealised mathematical value;
the binary64 aspects of a JavaScript number are modelled separately below). -/

/-- Initial state of `useState(0)`. -/
def initialCount : Int := 0

/-- The state-updater passed to `setCount`: `(count) => count + 1`. -/
def increment (count : Int) : Int := count + 1

/-- Counter value after `n` activations of the button from the initial state. -/
def countAfter : Nat → Int
  | 0 => initialCount
  | n + 1 => increment (countAfter n)

/-- A counter value is reachable when some number of activations produces it. -/
def Reachable (c : Int) : Prop := ∃ n : Nat, c = countAfter n

/-! ### Session events

A session consists of clicks and page reloads; a reload discards the
in-memory state and re-runs `useState(0)`. -/

inductive Event where
  | click
  | reload
deriving DecidableEq

/-- One session step: a click applies the updater, a reload resets to the
initial state. -/
def step (c : Int) : Event → Int
  | .click => increment c
  | .reload => initialCount

/-- Counter value displayed after processing a list of session events from a
fresh page load. -/
def runSession (es : List Event) : Int := es.foldl step initialCount

/-! ### The updater expression as JavaScript evaluation

To express that the updater body `count + 1` has no failure path, it is
embedded as a micro-expression whose evaluator returns `Option Int`
(`none` would be a thrown exception). -/

inductive JSExpr where
  | num (n : Int)
  | countVar
  | plus (a b : JSExpr)

/-- Evaluate an expression against the current `count`; `none` models a
JavaScript exception (no constructor of `JSExpr` produces one). -/
def evalJS (count : Int) : JSExpr → Option Int
  | .num n => some n
  | .countVar => some count
  | .plus a b =>
    match evalJS count a, evalJS count b with
    | some x, some y => some (x + y)
    | _, _ => none

/-- The body of the updater in `setCount((count) => count + 1)`. -/
def updaterBody : JSExpr := .plus .countVar (.num 1)

/-! ### Batched updates (React update queue)

React may queue several state updates before re-rendering.  An update is
either a plain value (`setCount(v)`) or a functional updater
(`setCount(f)`); the queue is applied left to right, each functional
updater receiving the state produced so far. -/

inductive StateUpdate where
  | setValue (v : Int)
  | modify (f : Int → Int)

/-- Apply one queued update to the pending state. -/
def applyUpdate (c : Int) : StateUpdate → Int
  | .setValue v => v
  | .modify f => f c

/-- Apply a queue of updates left to right. -/
def applyUpdates (c : Int) (us : List StateUpdate) : Int := us.foldl applyUpdate c

/-- What the source enqueues per click: the functional form
`setCount((count) => count + 1)`. -/
def clickUpdate : StateUpdate := .modify increment

/-- The stale-read alternative `setCount(count + 1)`, which captures the
render-time value `rendered`. -/
def staleClickUpdate (rendered : Int) : StateUpdate := .setValue (rendered + 1)

/-! ## JavaScript number semantics of `count + 1`

`count` is a JavaScript number, an IEEE-754 binary64 value.  Every integer
in `[0, 2^53]` is exactly representable; `2^53 + 1` is not, and adding `1`
to `2^53` rounds (to nearest, ties to even mantissa) back to `2^53`.
`jsAdd1` models one evaluation of `count + 1` for integer-valued counters
in `[0, 2^53]`, the range the displayed-value claims range over; outside
that range the definition is not used. -/

/-- `Number.MAX_SAFE_INTEGER + 1`, the largest `n` with every integer in
`[0, n]` exactly representable in binary64. -/
def maxExact : Nat := 2 ^ 53

/-- Binary64 addition of `1` on an integer-valued counter in `[0, 2^53]`:
exact below `2^53`; at `2^53` the true sum `2^53 + 1` is not representable
and round-to-nearest-even yields `2^53` again. -/
def jsAdd1 (x : Nat) : Nat := if x < maxExact then x + 1 else x

/-- Counter value after `n` clicks under binary64 arithmetic. -/
def jsCountAfter : Nat → Nat
  | 0 => 0
  | n + 1 => jsAdd1 (jsCountAfter n)

/-! ## Rendered output of `App`

The JSX returned by `App`, as a tree of DOM nodes.  Only the button's
label interpolates `count`; the JSX text `Count is {count}` yields the
two text children of the button. -/

inductive Node where
  | elem (tag : String) (attrs : List (String × String)) (children : List Node)
  | text (s : String)

/-- `import viteLogo from '/vite.svg'` resolves to the public-root URL. -/
def viteLogo : String := "/vite.svg"

/-- `import reactLogo from './assets/react.svg'` resolves to the asset URL. -/
def reactLogo : String := "./assets/react.svg"

/-- The fragment returned by `App` for a given `count`, node for node from
the JSX in `src/App.jsx`. -/
def renderApp (count : Int) : List Node :=
  [ .elem "div" []
      [ .elem "a" [("href", "https://vitejs.dev"), ("target", "_blank"), ("rel", "noreferrer")]
          [ .elem "img" [("src", viteLogo), ("className", "logo"), ("alt", "Vite logo")] [] ],
        .elem "a" [("href", "https://react.dev"), ("target", "_blank"), ("rel", "noreferrer")]
          [ .elem "img" [("src", reactLogo), ("className", "logo react"), ("alt", "React logo")] [] ] ],
    .elem "h1" [] [.text "Demo Website"],
    .elem "div" [("className", "card")]
      [ .elem "p" []
          [.text "This is a demonstration website to show how to deploy a Vite+React app using GitHub Actions."],
        .elem "p" [("className", "read-the-docs")]
          [.text "Click the logos to learn more about Vite and React"],
        .elem "button" [] [.text "Count is ", .text (toString count)] ] ]

/-- Tag and attributes of the card `div` (the third top-level node),
without its children. -/
def cardShell (ns : List Node) : Option (String × List (String × String)) :=
  match ns.get? 2 with
  | some (.elem tag attrs _) => some (tag, attrs)
  | _ => none

/-- Number of children of the card `div`. -/
def cardChildCount (ns : List Node) : Option Nat :=
  match ns.get? 2 with
  | some (.elem _ _ cs) => some cs.length
  | _ => none

/-- The `i`-th child of the card `div` (the third top-level node). -/
def cardChild (ns : List Node) (i : Nat) : Option Node :=
  match ns.get? 2 with
  | some (.elem _ _ cs) => cs.get? i
  | _ => none

/-- Tag and attributes of the button (third child of the card), without its
children. -/
def buttonShell (ns : List Node) : Option (String × List (String × String)) :=
  match cardChild ns 2 with
  | some (.elem tag attrs _) => some (tag, attrs)
  |  _ => none

/-- The static part of the button label (its first text child). -/
def buttonStaticText (ns : List Node) : Option String :=
  match cardChild ns 2 with
  | some (.elem _ _ (.text s :: _)) => some s
  | _ => none

/-- The interpolated count text inside the button label. -/
def buttonCountText (ns : List Node) : Option String :=
  match cardChild ns 2 with
  | some (.elem _ _ [_, .text s]) => some s
  | _ => none

/-! ## Deployment workflow (`.github/workflows/deploy.yml`, README §3)

The workflow triggers on `push` to `main`.  Job `build` runs five steps in
order; job `deploy` `needs: build` and is guarded by
`if: github.ref == 'refs/heads/main'`. -/

/-- One workflow step: display name, the action it `uses` (or `""` for a
`run` step), its `run` command line, and its `with:` arguments. -/
structure Step where
  stepName : String
  uses : String
  runCmd : String
  withArgs : List (String × String)
deriving DecidableEq

/-- A workflow job: name, dependencies (`needs:`), the `if:` condition as a
predicate on `github.ref`, and the step list. -/
structure Job where
  jobName : String
  needs : List String
  cond : String → Bool
  steps : List Step

def checkoutStep : Step := ⟨"Checkout repo", "actions/checkout@v4", "", []⟩

def setupNodeStep : Step :=
  ⟨"Setup Node", "actions/setup-node@v4", "", [("node-version", "20")]⟩

def installStep : Step := ⟨"Install dependencies", "bahmutov/npm-install@v1", "", []⟩

def buildStep : Step := ⟨"Build project", "", "npm run build", []⟩

def uploadStep : Step :=
  ⟨"Upload production-ready build files", "actions/upload-artifact@v4", "",
    [("name", "production-files"), ("path", "./dist")]⟩

def downloadStep : Step :=
  ⟨"Download artifact", "actions/download-artifact@v4", "",
    [("name", "production-files"), ("path", "./dist")]⟩

def publishStep : Step :=
  ⟨"Deploy to GitHub Pages", "peaceiris/actions-gh-pages@v4", "",
    [("github_token", "$\x7b\x7b secrets.GITHUB_TOKEN \x7d\x7d"), ("publish_dir", "./dist")]⟩

/-- The `build` job: no `needs`, no `if`. -/
def buildJob : Job :=
  ⟨"build", [], fun _ => true,
    [checkoutStep, setupNodeStep, installStep, buildStep, uploadStep]⟩

/-- The `deploy` job: `needs: build`, `if: github.ref == 'refs/heads/main'`. -/
def deployJob : Job :=
  ⟨"deploy", ["build"], fun ref => ref == "refs/heads/main",
    [downloadStep, publishStep]⟩

def deployWorkflowJobs : List Job := [buildJob, deployJob]

/-- The workflow's `on: push: branches: [main]` trigger. -/
def workflowTriggered (pushedBranch : String) : Bool := pushedBranch == "main"

/-- Steps of a job run in order and stop at the first failure: the result is
the list of steps that executed, paired with overall success.  `ok` is the
outcome oracle for each step. -/
def runSteps (ok : Step → Bool) : List Step → List Step × Bool
  | [] => ([], true)
  | s :: rest =>
    if ok s then
      let r := runSteps ok rest
      (s :: r.1, r.2)
    else ([s], false)

/-- A job succeeds when every one of its steps succeeds. -/
def jobSucceeds (ok : Step → Bool) (j : Job) : Bool := j.steps.all ok

/-- Whether a job runs, per GitHub Actions semantics: its `if:` condition
holds on `github.ref` and every job in `needs:` both ran and succeeded.
`fuel` bounds the `needs` chain (the workflow has two jobs). -/
def jobRuns (w : List Job) (ref : String) (ok : Step → Bool) : Nat → Job → Bool
  | 0, _ => false
  | fuel + 1, j =>
    j.cond ref &&
      j.needs.all fun nm =>
        match w.find? (fun d => d.jobName == nm) with
        | some dep => jobRuns w ref ok fuel dep && jobSucceeds ok dep
        | none => false

/-- Whether the `deploy` job runs in a workflow run with the given
`github.ref` and step outcomes. -/
def deployRuns (ref : String) (ok : Step → Bool) : Bool :=
  jobRuns deployWorkflowJobs ref ok 2 deployJob

/-! ## Vite configuration (README §6) -/

/-- The repository name used throughout the README
(`https://github.com/YOUR_USERNAME/react-deploy-demo.git`). -/
def repositoryName : String := "react-deploy-demo"

/-- The single `base` setting in the README's `vite.config.js`:
`base: '/react-deploy-demo/'`. -/
def viteBase : String := "/react-deploy-demo/"

/-! ## Helper lemmas -/

/-- A queue of `k + 1` copies of the same plain-value update ends at that
value, whatever the starting state. -/
lemma applyUpdates_replicate_setValue (v x : Int) (k : Nat) :
    applyUpdates x (List.replicate (k + 1) (.setValue v)) = v := by
  induction k generalizing x with
  | zero => rfl
  | succ k ih =>
    rw [List.replicate_succ]
    exact ih v

/-! ## Claims -/

/-- C1: for every click count `n ≥ 0`, `n` activations of the button from
the initial state `0` leave the counter equal to `n`. -/
theorem counter_after_n_clicks (n : Nat) : countAfter n = (n : Int) := by
  induction n with
  | zero => rfl
  | succ n ih =>
    rw [countAfter, ih, increment]
    push_cast
    ring

/-- C2: every reachable counter value is non-negative, and one further
activation never decreases it. -/
theorem counter_invariant (c : Int) (h : Reachable c) : 0 ≤ c ∧ c ≤ increment c := by
  obtain ⟨n, rfl⟩ := h
  rw [counter_after_n_clicks]
  refine ⟨Int.ofNat_nonneg n, ?_⟩
  rw [increment]
  omega

/-- Witness for C2 at the concrete reachable state `initialCount`. -/
theorem counter_invariant_witness :
    0 ≤ initialCount ∧ initialCount ≤ increment initialCount :=
  counter_invariant initialCount ⟨0, rfl⟩

/-- C3: a fresh load shows `0`; one click shows `1`; three further clicks
show `4`; a reload resets the count to `0` whatever happened before. -/
theorem session_scenario :
    runSession [] = 0 ∧
    runSession [.click] = 1 ∧
    runSession [.click, .click, .click, .click] = 4 ∧
    ∀ es : List Event, runSession (es ++ [.reload]) = 0 := by
  refine ⟨rfl, by decide, by decide, fun es => ?_⟩
  rw [runSession, List.foldl_append]
  rfl

/-- C4: the updater body `count + 1` takes no input beyond the current
state, evaluates without any failure (`some`, never a thrown exception),
and its result is the current counter value plus one. -/
theorem increment_never_fails (c : Int) :
    evalJS c updaterBody = some (increment c) := rfl

/-- C8: when `k` activations are batched before a re-render, the functional
updates of the source each see the latest pending value and the counter
advances by exactly `k`; the stale-read form `setCount(count + 1)`, which
captures the render-time value, would advance it by only one. -/
theorem functional_updates_lose_no_clicks :
    (∀ (c : Int) (k : Nat), applyUpdates c (List.replicate k clickUpdate) = c + k) ∧
    (∀ (c : Int) (k : Nat),
      applyUpdates c (List.replicate (k + 1) (staleClickUpdate c)) = c + 1) := by
  constructor
  · intro c k
    induction k generalizing c with
    | zero => simp [applyUpdates]
    | succ k ih =>
      rw [List.replicate_succ]
      have hstep : applyUpdates c (clickUpdate :: List.replicate k clickUpdate) =
          applyUpdates (c + 1) (List.replicate k clickUpdate) := rfl
      rw [hstep, ih]
      push_cast
      ring
  · intro c k
    exact applyUpdates_replicate_setValue (c + 1) c k

/-- C9: under binary64 arithmetic `count + 1` is the exact integer
successor exactly while `count < 2^53`, and the displayed value equals the
click count for every `n ≤ 2^53`. -/
theorem double_precision_counter :
    (∀ x : Nat, x ≤ maxExact → (jsAdd1 x = x + 1 ↔ x < maxExact)) ∧
    (∀ n : Nat, n ≤ maxExact → jsCountAfter n = n) := by
  have hadd : ∀ x : Nat, x ≤ maxExact → (jsAdd1 x = x + 1 ↔ x < maxExact) := by
    intro x _
    by_cases h : x < maxExact
    · simp [jsAdd1, h]
    · simp [jsAdd1, h]
  refine ⟨hadd, ?_⟩
  intro n hn
  induction n with
  | zero => rfl
  | succ n ih =>
    have hn' : n < maxExact := Nat.lt_of_succ_le hn
    rw [jsCountAfter, ih (Nat.le_of_lt hn'), jsAdd1, if_pos hn']

/-- Witness for C9 at the concrete click count `5`. -/
theorem double_precision_counter_witness :
    (jsAdd1 5 = 5 + 1 ↔ 5 < maxExact) ∧ jsCountAfter 5 = 5 :=
  ⟨double_precision_counter.1 5 (by decide), double_precision_counter.2 5 (by decide)⟩

/-- The first failed step of a job makes the whole step run fail. -/
lemma runSteps_snd_false (ok : Step → Bool) (s : Step) :
    ∀ steps : List Step, s ∈ steps → ok s = false → (runSteps ok steps).2 = false := by
  intro steps
  induction steps with
  | nil => intro h; exact absurd h (List.not_mem_nil s)
  | cons hd tl ih =>
    intro hmem hfail
    rw [runSteps]
    by_cases hhd : ok hd
    · simp only [hhd, if_true]
      rcases List.mem_cons.mp hmem with heq | htl
      · rw [heq] at hfail
        rw [hfail] at hhd
        exact absurd hhd (by simp)
      · exact ih htl hfail
    · simp [hhd]

/-- C5: the `deploy` job runs only when `github.ref` is `refs/heads/main`
and only after every step of the `build` job succeeded; any failed build
step fails the build job and prevents `deploy` from running at all. -/
theorem deploy_only_on_main_after_build :
    (∀ (ref : String) (ok : Step → Bool),
      deployRuns ref ok = true →
        ref = "refs/heads/main" ∧ jobSucceeds ok buildJob = true) ∧
    (∀ (ok : Step → Bool) (s : Step) (ref : String),
      s ∈ buildJob.steps → ok s = false →
        deployRuns ref ok = false ∧ (runSteps ok buildJob.steps).2 = false) := by
  constructor
  · intro ref ok h
    simp only [deployRuns, jobRuns, deployWorkflowJobs, deployJob, buildJob, jobSucceeds,
      List.find?, List.all_cons, List.all_nil, Bool.and_eq_true, beq_iff_eq] at h
    obtain ⟨href, hbuild⟩ := h
    refine ⟨href, ?_⟩
    simpa [jobSucceeds, buildJob] using hbuild
  · intro ok s ref hmem hfail
    have hall : buildJob.steps.all ok = false := by
      apply Bool.eq_false_iff.mpr
      intro hc
      have hs := List.all_eq_true.mp hc s hmem
      rw [hfail] at hs
      exact Bool.false_ne_true hs
    refine ⟨?_, runSteps_snd_false ok s buildJob.steps hmem hfail⟩
    simp only [deployRuns, jobRuns, deployWorkflowJobs, deployJob, buildJob, jobSucceeds,
      List.find?, List.all_cons, List.all_nil]
    simp only [jobSucceeds, buildJob] at hall
    simp [hall]

/-- Witness for C5: with every step passing and ref `refs/heads/main` the
gate's conclusion holds, and with every step failing deploy does not run. -/
theorem deploy_only_on_main_after_build_witness :
    ("refs/heads/main" = "refs/heads/main" ∧
      jobSucceeds (fun _ => true) buildJob = true) ∧
    (deployRuns "refs/heads/main" (fun _ => false) = false ∧
      (runSteps (fun _ => false) buildJob.steps).2 = false) :=
  ⟨deploy_only_on_main_after_build.1 "refs/heads/main" (fun _ => true) (by decide),
   deploy_only_on_main_after_build.2 (fun _ => false) checkoutStep "refs/heads/main"
     (by decide) rfl⟩

/-- C6: the build job's final step uploads `./dist` as the artifact
`production-files`, and the deploy job's first step downloads the artifact
of that same name before the publish step pushes it to GitHub Pages. -/
theorem artifact_names_agree :
    uploadStep.withArgs.lookup "name" = some "production-files" ∧
    downloadStep.withArgs.lookup "name" = uploadStep.withArgs.lookup "name" ∧
    uploadStep.withArgs.lookup "path" = some "./dist" ∧
    buildJob.steps[4]? = some uploadStep ∧
    deployJob.steps = [downloadStep, publishStep] ∧
    publishStep.withArgs.lookup "publish_dir" = some "./dist" := by
  refine ⟨rfl, rfl, rfl, rfl, rfl, rfl⟩

/-- C7: the single `base` setting given to the build tool is the
repository's name as a URL sub-path. -/
theorem base_path_is_repo_subpath : viteBase = "/" ++ repositoryName ++ "/" := rfl

/-- C10: an activation changes only the button's label: for any two counter
values the logo-link `div`, the heading, the card and both paragraphs, and
the button's tag, attributes and static text are all identical; the only
count-dependent part is the interpolated count text. -/
theorem activation_frame_effect (c c' : Int) :
    (renderApp c).length = (renderApp c').length ∧
    (renderApp c)[0]? = (renderApp c')[0]? ∧
    (renderApp c)[1]? = (renderApp c')[1]? ∧
    cardShell (renderApp c) = cardShell (renderApp c') ∧
    cardChild (renderApp c) 0 = cardChild (renderApp c') 0 ∧
    cardChild (renderApp c) 1 = cardChild (renderApp c') 1 ∧
    cardChildCount (renderApp c) = cardChildCount (renderApp c') ∧
    buttonShell (renderApp c) = buttonShell (renderApp c') ∧
    buttonStaticText (renderApp c) = buttonStaticText (renderApp c') ∧
    buttonCountText (renderApp c) = some (toString c) :=
  ⟨rfl, rfl, rfl, rfl, rfl, rfl, rfl, rfl, rfl, rfl⟩

end ViteReactDeploy
